import Mathlib

/-
Verification of the mutable-object channel subsystem
(`src/ray/core_worker/experimental_mutable_object_manager.cc` and
`src/ray/core_worker/experimental_mutable_object_provider.cc`).

The per-process `MutableObjectManager` operations are translated directly from
the source on the POSIX branch (`__APPLE__`/`__linux__`).  The shared-memory
`PlasmaObjectHeader` protocol and the `Channel` record are declared in files
that are not part of this tree, so they are modelled from the specification;
their definitions carry a doc comment starting with `Modelled from the spec:`.

Machine integers are modelled by `Nat` (the 64-bit counters here are only
incremented, so no wrap-around is reachable) except for the two reader
counters, which are `Int` because the C++ code decrements `int64_t` values
that may become negative.
-/

namespace Ray

/-- Status codes used by the translated operations.  `objectNotFound` is the
spec's `NotRegistered`, `invalid` its `InvalidRegistration`, `ioError` its
`ChannelError`. -/
inductive StatusCode where
  | ok
  | objectNotFound
  | invalid
  | invalidArgument
  | ioError
deriving DecidableEq

/-- Outcome of one operation.  `ok` carries the post-state and a return value;
`err` carries a status code together with the state exactly as the failed call
left it; `blocked` models a call that never returns because it waits on a
semaphore or mutex that is never signalled; `halt` models a failed `RAY_CHECK`
that aborts the process. -/
inductive Res (σ : Type) (α : Type) where
  | ok (s : σ) (a : α)
  | err (c : StatusCode) (s : σ)
  | blocked
  | halt
deriving DecidableEq

def Res.isOk {σ α : Type} : Res σ α → Bool
  | .ok _ _ => true
  | _ => false

/-- Modelled from the spec: the build mode distinction of §7.  `RAY_CHECK` is
defined in a logging header that is not part of this tree; per the spec,
a failed check on a programming error halts the process in debug builds and
returns the corresponding error kind in release builds. -/
inductive BuildMode where
  | debug
  | release
deriving DecidableEq

/-- Modelled from the spec: outcome of a failed `RAY_CHECK` on a programming
error, per build mode (§7 of the spec). -/
def checkFail {σ α : Type} (mode : BuildMode) (c : StatusCode) (s : σ) : Res σ α :=
  match mode with
  | .debug => .halt
  | .release => .err c s

/-- Modelled from the spec: the shared-memory object header (§3).  Its C++
implementation lives in `ray/object_manager/common.cc`, which is not part of
this tree.  The two named counting semaphores are folded into the header state
as their counter values; `header_sem` is acquired and released inside every
single operation and therefore stays constant in this sequential model.  The
creation latch `semaphores_created` is omitted: it only matters for the
cross-process creation race, which a sequential model cannot express. -/
structure PlasmaObjectHeader where
  unique_name : String
  version : Nat
  num_readers : Nat
  num_read_acquires_remaining : Int
  num_read_releases_remaining : Int
  data_size : Nat
  metadata_size : Nat
  has_error : Bool
  object_sem : Nat
  header_sem : Nat
deriving DecidableEq

/-- Modelled from the spec: header `WriteAcquire` (§4.A).  Fails with
`ChannelError` when `has_error` is observed; waits on `object_sem` until the
previous version is drained (a wait that never ends is `blocked`); then writes
the new sizes and reader counters. -/
def PlasmaObjectHeader.WriteAcquire (h : PlasmaObjectHeader) (ds ms nr : Nat) :
    Res PlasmaObjectHeader Unit :=
  if h.has_error then .err .ioError h
  else if h.object_sem = 0 then .blocked
  else .ok { h with
              object_sem := h.object_sem - 1,
              data_size := ds,
              metadata_size := ms,
              num_readers := nr,
              num_read_acquires_remaining := Int.ofNat nr,
              num_read_releases_remaining := Int.ofNat nr } ()

/-- Modelled from the spec: header `WriteRelease` (§4.A).  Increments
`version` and posts `object_sem` once per declared reader.  Releases are
no-ops when the channel is in the error state. -/
def PlasmaObjectHeader.WriteRelease (h : PlasmaObjectHeader) : PlasmaObjectHeader :=
  if h.has_error then h
  else { h with version := h.version + 1, object_sem := h.object_sem + h.num_readers }

/-- Modelled from the spec: header `ReadAcquire` (§4.A).  Readers observing
`has_error` return `ChannelError`; otherwise the reader waits on `object_sem`
until a version at least `requested` is visible and an acquire slot remains,
then takes one slot and reports the version it read. -/
def PlasmaObjectHeader.ReadAcquire (h : PlasmaObjectHeader) (requested : Nat) :
    Res PlasmaObjectHeader Nat :=
  if h.has_error then .err .ioError h
  else if h.object_sem = 0 ∨ h.version < requested ∨ h.num_read_acquires_remaining ≤ 0 then
    .blocked
  else
    .ok { h with
           object_sem := h.object_sem - 1,
           num_read_acquires_remaining := h.num_read_acquires_remaining - 1 } h.version

/-- Modelled from the spec: header `ReadRelease` (§4.A).  Decrements the
release counter and, when it reaches zero, posts `object_sem` once so the next
`WriteAcquire` can proceed.  The version argument is part of the C++ signature
but does not influence the header transition.  Releases are no-ops when the
channel is in the error state. -/
def PlasmaObjectHeader.ReadRelease (h : PlasmaObjectHeader) (_version_just_read : Nat) :
    PlasmaObjectHeader :=
  if h.has_error then h
  else
    let r := h.num_read_releases_remaining - 1
    { h with
       num_read_releases_remaining := r,
       object_sem := if r = 0 then h.object_sem + 1 else h.object_sem }

/-- Modelled from the spec: header `SetErrorUnlocked` (§4.A).  Sets the sticky
error flag; idempotent.  The semaphore posts that wake blocked peers are not
tracked because every acquire in this model checks `has_error` first. -/
def PlasmaObjectHeader.SetErrorUnlocked (h : PlasmaObjectHeader) : PlasmaObjectHeader :=
  { h with has_error := true }

/-- The allocator-produced object: a byte buffer of capacity `allocated_size`
plus the shared header (§3 of the spec; the C++ struct is declared outside
this tree). -/
structure MutableObject where
  buffer : List Nat
  allocated_size : Nat
  header : PlasmaObjectHeader
deriving DecidableEq

/-- Modelled from the spec: the per-process `Channel` record (§3).  The struct
is declared in `experimental_mutable_object_manager.h`, which is not part of
this tree; fields and their initial values follow the spec.  `lockHeld` is the
state of the per-channel reader mutex (`channel->lock`). -/
structure Channel where
  mutable_object : MutableObject
  reader_registered : Bool := false
  writer_registered : Bool := false
  written : Bool := false
  next_version_to_read : Nat := 1
  lockHeld : Bool := false
deriving DecidableEq

/-- Process-local state of a `MutableObjectManager`: the channel map and the
set of object ids whose semaphore pair has been opened. -/
structure ManagerState where
  channels : List (Nat × Channel)
  semaphores : List Nat
deriving DecidableEq

def lookupCh : List (Nat × Channel) → Nat → Option Channel
  | [], _ => none
  | (k, c) :: rest, oid => if k = oid then some c else lookupCh rest oid

def updateCh : List (Nat × Channel) → Nat → Channel → List (Nat × Channel)
  | [], _, _ => []
  | (k, c) :: rest, oid, ch => if k = oid then (k, ch) :: rest else (k, c) :: updateCh rest oid ch

def setCh (st : ManagerState) (oid : Nat) (ch : Channel) : ManagerState :=
  { st with channels := updateCh st.channels oid ch }

/-- `GetSemaphoreObjectName` from the source: prefixes the name with `"obj"`
after a `RAY_CHECK_LE(name.size(), PSEMNAMLEN)`.  The platform constant
`PSEMNAMLEN` is the parameter `p`; `none` models the halt of a failed check
(the function returns a string, so no status can be reported). -/
def GetSemaphoreObjectName (p : Nat) (name : String) : Option String :=
  if name.length ≤ p then some ("obj" ++ name) else none

/-- `GetSemaphoreHeaderName` from the source: prefixes the name with `"hdr"`
after the same length check. -/
def GetSemaphoreHeaderName (p : Nat) (name : String) : Option String :=
  if name.length ≤ p then some ("hdr" ++ name) else none

namespace MutableObjectManager

/-- `MutableObjectManager::GetSemaphoreName` from the source: reads
`header->unique_name` and `RAY_CHECK`s its length against `PSEMNAMLEN`. -/
def GetSemaphoreName (p : Nat) (header : PlasmaObjectHeader) : Option String :=
  if header.unique_name.length ≤ p then some header.unique_name else none

/-- `MutableObjectManager::OpenSemaphores` from the source.  If the pair is
already open for this object the call is a no-op; otherwise the semaphore
names are derived (each derivation `RAY_CHECK`s the name length) and the pair
is recorded as open.  The create/open election through the shared creation
latch and the `sem_open` calls are operating-system effects outside this
model; only their bookkeeping (the `semaphores_` map entry) is kept. -/
def OpenSemaphores (p : Nat) (st : ManagerState) (oid : Nat) (header : PlasmaObjectHeader) :
    Res ManagerState Unit :=
  if st.semaphores.contains oid then .ok st ()
  else
    match GetSemaphoreName p header,
          GetSemaphoreObjectName p header.unique_name,
          GetSemaphoreHeaderName p header.unique_name with
    | some _, some _, some _ => .ok { st with semaphores := oid :: st.semaphores } ()
    | _, _, _ => .halt

/-- `MutableObjectManager::RegisterChannel` from the source: emplaces the
channel (keeping an existing one), rejects a second registration of the same
role with `Invalid`, sets the requested role flag, and opens the semaphore
pair. -/
def RegisterChannel (p : Nat) (st : ManagerState) (oid : Nat) (obj : MutableObject)
    (reader : Bool) : Res ManagerState Unit :=
  match lookupCh st.channels oid with
  | none =>
      let ch : Channel := { mutable_object := obj }
      let ch := if reader then { ch with reader_registered := true }
                else { ch with writer_registered := true }
      OpenSemaphores p { st with channels := (oid, ch) :: st.channels } oid
        ch.mutable_object.header
  | some ch =>
      if (reader && ch.reader_registered) || (!reader && ch.writer_registered) then
        .err .invalid st
      else
        let ch' := if reader then { ch with reader_registered := true }
                   else { ch with writer_registered := true }
        OpenSemaphores p (setCh st oid ch') oid ch'.mutable_object.header

/-- `memcpy(buf + off, src, src.length)` on a byte buffer. -/
def writeBytes (buf : List Nat) (off : Nat) (src : List Nat) : List Nat :=
  buf.take off ++ src ++ buf.drop (off + src.length)

/-- `MutableObjectManager::WriteAcquire` from the source.  Order of events as
in the code: channel lookup (`ObjectNotFound` when absent), the
`writer_registered` and `!written` checks, the size validation
(`InvalidArgument`), the semaphore lookup, the header `WriteAcquire`, the
metadata copy into the tail of the data region, and finally `written := true`. -/
def WriteAcquire (mode : BuildMode) (st : ManagerState) (oid : Nat) (data_size : Nat)
    (metadata : Option (List Nat)) (metadata_size : Nat) (num_readers : Nat) :
    Res ManagerState Unit :=
  match lookupCh st.channels oid with
  | none => .err .objectNotFound st
  | some ch =>
      if !ch.writer_registered then checkFail mode .objectNotFound st
      else if ch.written then checkFail mode .invalidArgument st
      else if data_size + metadata_size > ch.mutable_object.allocated_size then
        .err .invalidArgument st
      else if !(st.semaphores.contains oid) then .halt
      else
        match ch.mutable_object.header.WriteAcquire data_size metadata_size num_readers with
        | .err c _ => .err c st
        | .blocked => .blocked
        | .halt => .halt
        | .ok h () =>
            let buf :=
              match metadata with
              | none => ch.mutable_object.buffer
              | some md => writeBytes ch.mutable_object.buffer data_size (md.take metadata_size)
            .ok (setCh st oid
                  { ch with
                     mutable_object := { ch.mutable_object with header := h, buffer := buf },
                     written := true }) ()

/-- `MutableObjectManager::WriteRelease` from the source: requires a
registered writer and `written = true`, then runs the header `WriteRelease`
and clears `written`. -/
def WriteRelease (mode : BuildMode) (st : ManagerState) (oid : Nat) : Res ManagerState Unit :=
  match lookupCh st.channels oid with
  | none => .err .objectNotFound st
  | some ch =>
      if !ch.writer_registered then checkFail mode .objectNotFound st
      else if !ch.written then checkFail mode .invalidArgument st
      else if !(st.semaphores.contains oid) then .halt
      else
        .ok (setCh st oid
              { ch with
                 mutable_object :=
                   { ch.mutable_object with header := ch.mutable_object.header.WriteRelease },
                 written := false }) ()

/-- `MutableObjectManager::ReadAcquire` from the source.  The per-channel
reader mutex is taken before anything else; as in the code, the early error
return after a failed header `ReadAcquire` does NOT release that mutex (the
`err` outcome carries the state with `lockHeld := true`).  On success the
version read becomes `next_version_to_read` and two sub-slices of the buffer
sized by the header are returned together with the version. -/
def ReadAcquire (mode : BuildMode) (st : ManagerState) (oid : Nat) :
    Res ManagerState (Nat × List Nat × List Nat) :=
  match lookupCh st.channels oid with
  | none => .err .objectNotFound st
  | some ch =>
      if !ch.reader_registered then checkFail mode .objectNotFound st
      else if ch.lockHeld then .blocked
      else
        let ch₁ := { ch with lockHeld := true }
        if !(st.semaphores.contains oid) then .halt
        else
          match ch.mutable_object.header.ReadAcquire ch.next_version_to_read with
          | .err c _ => .err c (setCh st oid ch₁)
          | .blocked => .blocked
          | .halt => .halt
          | .ok h v =>
              if v = 0 then .halt
              else
                let ch₂ := { ch₁ with
                              mutable_object := { ch₁.mutable_object with header := h },
                              next_version_to_read := v }
                if ch₂.mutable_object.allocated_size < h.data_size + h.metadata_size then .halt
                else
                  .ok (setCh st oid ch₂)
                    (v, ch₂.mutable_object.buffer.take h.data_size,
                     (ch₂.mutable_object.buffer.drop h.data_size).take h.metadata_size)

/-- `MutableObjectManager::ReadRelease` from the source: runs the header
`ReadRelease` with the current `next_version_to_read`, increments
`next_version_to_read`, and releases the reader mutex. -/
def ReadRelease (mode : BuildMode) (st : ManagerState) (oid : Nat) : Res ManagerState Unit :=
  match lookupCh st.channels oid with
  | none => .err .objectNotFound st
  | some ch =>
      if !ch.reader_registered then checkFail mode .objectNotFound st
      else if !(st.semaphores.contains oid) then .halt
      else
        .ok (setCh st oid
              { ch with
                 mutable_object :=
                   { ch.mutable_object with
                      header := ch.mutable_object.header.ReadRelease ch.next_version_to_read },
                 next_version_to_read := ch.next_version_to_read + 1,
                 lockHeld := false }) ()

/-- `MutableObjectManager::SetError(object_id)` from the source.  As in the
code, `GetSemaphores` runs before the null-channel branch, and its
`RAY_CHECK` on the map lookup halts when the object has no semaphore entry;
only afterwards is `ObjectNotFound` returned for a missing channel.  On
success the header error flag is set and both registration flags are
cleared. -/
def SetError (st : ManagerState) (oid : Nat) : Res ManagerState Unit :=
  if !(st.semaphores.contains oid) then .halt
  else
    match lookupCh st.channels oid with
    | none => .err .objectNotFound st
    | some ch =>
        .ok (setCh st oid
              { ch with
                 mutable_object :=
                   { ch.mutable_object with
                      header := ch.mutable_object.header.SetErrorUnlocked },
                 reader_registered := false,
                 writer_registered := false }) ()

end MutableObjectManager

/-- The `LocalInfo` record of the provider: the declared reader count and the
local object id a remote object id maps to. -/
structure LocalInfo where
  num_readers : Nat
  local_object_id : Nat
deriving DecidableEq

/-- Process-local state of a `MutableObjectProvider`: its object manager and
the `cross_node_map` populated by `HandleRegisterMutableObject`. -/
structure ProviderState where
  object_manager : ManagerState
  cross_node_map : List (Nat × LocalInfo)
deriving DecidableEq

def lookupInfo : List (Nat × LocalInfo) → Nat → Option LocalInfo
  | [], _ => none
  | (k, i) :: rest, oid => if k = oid then some i else lookupInfo rest oid

namespace MutableObjectProvider

/-- `MutableObjectProvider::HandlePushMutableObject` from the source: looks up
the local mapping (`RAY_CHECK` on the map lookup halts when absent), calls
`WriteAcquire` on the local channel with the metadata pointer
`request.data() + data_size` (a non-OK status fails the surrounding
`RAY_CHECK_OK`), copies `data_size + metadata_size` bytes of the request
payload contiguously through the returned slice (modelled as an update of the
channel buffer the slice aliases), and calls `WriteRelease`. -/
def HandlePushMutableObject (mode : BuildMode) (ps : ProviderState) (object_id : Nat)
    (data_size metadata_size : Nat) (bytes : List Nat) : Res ProviderState Unit :=
  match lookupInfo ps.cross_node_map object_id with
  | none => .halt
  | some info =>
      match MutableObjectManager.WriteAcquire mode ps.object_manager info.local_object_id
              data_size (some (bytes.drop data_size)) metadata_size info.num_readers with
      | .blocked => .blocked
      | .ok st () =>
          match lookupCh st.channels info.local_object_id with
          | none => .halt
          | some ch =>
              let total := data_size + metadata_size
              let st₂ := setCh st info.local_object_id
                { ch with mutable_object :=
                    { ch.mutable_object with
                       buffer := MutableObjectManager.writeBytes ch.mutable_object.buffer 0
                         (bytes.take total) } }
              match MutableObjectManager.WriteRelease mode st₂ info.local_object_id with
              | .ok st₃ () => .ok { ps with object_manager := st₃ } ()
              | .blocked => .blocked
              | _ => .halt
      | _ => .halt

/-- The cross-node round trip: an inbound `PushMutableObject` is handled and
the mapped local channel is then read with `MutableObjectManager.ReadAcquire`.
Any non-returning outcome of the push is propagated. -/
def PushThenReadAcquire (mode : BuildMode) (ps : ProviderState)
    (object_id ds ms : Nat) (bytes : List Nat) :
    Res ManagerState (Nat × List Nat × List Nat) :=
  match HandlePushMutableObject mode ps object_id ds ms bytes,
        lookupInfo ps.cross_node_map object_id with
  | .ok ps' _, some info =>
      MutableObjectManager.ReadAcquire mode ps'.object_manager info.local_object_id
  | _, _ => .halt

end MutableObjectProvider

/-- One call into the manager, for reasoning about arbitrary call sequences. -/
inductive Op where
  | reg (oid : Nat) (obj : MutableObject) (reader : Bool)
  | wAcq (oid ds : Nat) (md : Option (List Nat)) (ms nr : Nat)
  | wRel (oid : Nat)
  | rAcq (oid : Nat)
  | rRel (oid : Nat)
  | sErr (oid : Nat)

/-- Runs one manager call.  The second component reports a successful
`ReadAcquire` as the pair of the object id and the version read.  Calls that
do not return (`blocked`, `halt`) leave the state unchanged with no report. -/
def runOp (p : Nat) (mode : BuildMode) (st : ManagerState) : Op → ManagerState × Option (Nat × Nat)
  | .reg oid obj r =>
      match MutableObjectManager.RegisterChannel p st oid obj r with
      | .ok s _ => (s, none)
      | .err _ s => (s, none)
      | _ => (st, none)
  | .wAcq oid ds md ms nr =>
      match MutableObjectManager.WriteAcquire mode st oid ds md ms nr with
      | .ok s _ => (s, none)
      | .err _ s => (s, none)
      | _ => (st, none)
  | .wRel oid =>
      match MutableObjectManager.WriteRelease mode st oid with
      | .ok s _ => (s, none)
      | .err _ s => (s, none)
      | _ => (st, none)
  | .rAcq oid =>
      match MutableObjectManager.ReadAcquire mode st oid with
      | .ok s (v, _, _) => (s, some (oid, v))
      | .err _ s => (s, none)
      | _ => (st, none)
  | .rRel oid =>
      match MutableObjectManager.ReadRelease mode st oid with
      | .ok s _ => (s, none)
      | .err _ s => (s, none)
      | _ => (st, none)
  | .sErr oid =>
      match MutableObjectManager.SetError st oid with
      | .ok s _ => (s, none)
      | .err _ s => (s, none)
      | _ => (st, none)

/-- The versions returned by the successful `ReadAcquire` calls on channel
`oid` along a call sequence. -/
def readVersions (p : Nat) (mode : BuildMode) (oid : Nat) : ManagerState → List Op → List Nat
  | _, [] => []
  | st, op :: ops =>
      match (runOp p mode st op).2 with
      | some (o, v) =>
          if o = oid then v :: readVersions p mode oid (runOp p mode st op).1 ops
          else readVersions p mode oid (runOp p mode st op).1 ops
      | none => readVersions p mode oid (runOp p mode st op).1 ops

/-- Reader-progress invariant for channel `oid`: the bound `w` is below
`next_version_to_read`, weakly so while the reader mutex is held. -/
def GoodReader (oid w : Nat) (st : ManagerState) : Prop :=
  ∃ ch, lookupCh st.channels oid = some ch ∧
    (if ch.lockHeld then w ≤ ch.next_version_to_read else w < ch.next_version_to_read)

/- Concrete states used by witnesses and counterexamples. -/

/-- A fresh header, as the creating process leaves it: version 0, both
semaphores at their initial value 1, no error. -/
def hdr0 : PlasmaObjectHeader :=
  { unique_name := "u", version := 0, num_readers := 0, num_read_acquires_remaining := 0,
    num_read_releases_remaining := 0, data_size := 0, metadata_size := 0, has_error := false,
    object_sem := 1, header_sem := 1 }

/-- A 64-byte allocation with a fresh header. -/
def obj64 : MutableObject :=
  { buffer := List.replicate 64 0, allocated_size := 64, header := hdr0 }

/-- A channel registered for both roles. -/
def chRW : Channel := { mutable_object := obj64, reader_registered := true, writer_registered := true }

/-- Manager with `chRW` registered as object 1. -/
def stRW : ManagerState := { channels := [(1, chRW)], semaphores := [1] }

/-- The state `SetError` leaves behind from `stRW`: error flag set, both
registration flags cleared. -/
def stErr1 : ManagerState :=
  { channels := [(1, { chRW with
      mutable_object := { obj64 with header := { hdr0 with has_error := true } },
      reader_registered := false, writer_registered := false })],
    semaphores := [1] }

/-- A reader channel whose shared header already carries the error flag (for
example because the writer process called `SetError`). -/
def chE : Channel :=
  { mutable_object := { obj64 with header := { hdr0 with has_error := true } },
    reader_registered := true }

/-- Manager with `chE` registered as object 2. -/
def stE : ManagerState := { channels := [(2, chE)], semaphores := [2] }

/-- A writer channel with no write in flight. -/
def chW : Channel := { mutable_object := obj64, writer_registered := true }

/-- Manager with `chW` registered as object 3. -/
def stW : ManagerState := { channels := [(3, chW)], semaphores := [3] }

/-- A reader channel with one published, undrained version. -/
def chV : Channel :=
  { mutable_object := { obj64 with header := { hdr0 with
      version := 1, num_readers := 1, num_read_acquires_remaining := 1,
      num_read_releases_remaining := 1 } },
    reader_registered := true }

/-- Manager with `chV` registered as object 4. -/
def stV : ManagerState := { channels := [(4, chV)], semaphores := [4] }

/-- The header of `chV` after its single read slot has been taken. -/
def hdrV' : PlasmaObjectHeader :=
  { chV.mutable_object.header with object_sem := 0, num_read_acquires_remaining := 0 }

/-- The channel state `ReadAcquire` leaves behind from `chV`: read slot taken,
reader mutex held, `next_version_to_read` set to the version read. -/
def chV' : Channel :=
  { chV with
     lockHeld := true,
     next_version_to_read := 1,
     mutable_object := { chV.mutable_object with header := hdrV' } }

/-- An object whose header name has length 4. -/
def obj4 : MutableObject :=
  { buffer := [], allocated_size := 0, header := { hdr0 with unique_name := "abcd" } }

/-- An object whose header name has length 5. -/
def obj5 : MutableObject :=
  { buffer := [], allocated_size := 0, header := { hdr0 with unique_name := "abcde" } }

/-- A cross-node channel for the round-trip scenario S5: local object 1,
registered for both roles, mapped from remote object 7 with one reader. -/
def psS5 : ProviderState :=
  { object_manager := stRW,
    cross_node_map := [(7, { num_readers := 1, local_object_id := 1 })] }

/- Helper lemmas about the association list of channels. -/

theorem lookupCh_updateCh_self (l : List (Nat × Channel)) (k : Nat) (c : Channel) :
    lookupCh (updateCh l k c) k = (lookupCh l k).map (fun _ => c) := by
  induction l with
  | nil => rfl
  | cons hd tl ih =>
      obtain ⟨k', c'⟩ := hd
      by_cases hk : k' = k <;> simp [lookupCh, updateCh, hk, ih]

theorem lookupCh_updateCh_ne (l : List (Nat × Channel)) (k k' : Nat) (c : Channel)
    (h : k ≠ k') : lookupCh (updateCh l k c) k' = lookupCh l k' := by
  induction l with
  | nil => rfl
  | cons hd tl ih =>
      obtain ⟨k₀, c₀⟩ := hd
      by_cases hk : k₀ = k
      · subst hk; simp [lookupCh, updateCh, h]
      · simp only [updateCh, if_neg hk]
        by_cases hk' : k₀ = k' <;> simp [lookupCh, hk', ih]

theorem lookupCh_setCh_self (st : ManagerState) (k : Nat) (c : Channel) :
    lookupCh (setCh st k c).channels k = (lookupCh st.channels k).map (fun _ => c) :=
  lookupCh_updateCh_self st.channels k c

theorem lookupCh_setCh_ne (st : ManagerState) (k k' : Nat) (c : Channel) (h : k ≠ k') :
    lookupCh (setCh st k c).channels k' = lookupCh st.channels k' :=
  lookupCh_updateCh_ne st.channels k k' c h

/- Inversion lemmas used by the monotonic-version argument. -/

theorem hdr_ReadAcquire_ok (h : PlasmaObjectHeader) (req : Nat) (h' : PlasmaObjectHeader)
    (v : Nat) (hE : h.ReadAcquire req = .ok h' v) : v = h.version ∧ req ≤ h.version := by
  simp only [PlasmaObjectHeader.ReadAcquire] at hE
  split at hE
  · simp at hE
  · split at hE
    · simp at hE
    · rename_i hcond
      simp only [Res.ok.injEq] at hE
      push_neg at hcond
      exact ⟨hE.2.symm, hcond.2.1⟩

theorem ReadAcquire_ok_inv (mode : BuildMode) (st : ManagerState) (oid : Nat)
    (s : ManagerState) (v : Nat) (d m : List Nat)
    (hE : MutableObjectManager.ReadAcquire mode st oid = .ok s (v, d, m)) :
    ∃ ch h', lookupCh st.channels oid = some ch ∧ ch.lockHeld = false ∧
      ch.mutable_object.header.ReadAcquire ch.next_version_to_read = .ok h' v ∧
      0 < v ∧
      s = setCh st oid
        { ch with
           mutable_object := { ch.mutable_object with header := h' },
           next_version_to_read := v,
           lockHeld := true } := by
  simp only [MutableObjectManager.ReadAcquire] at hE
  split at hE
  · simp at hE
  · rename_i ch hl
    split at hE
    · cases mode <;> simp [checkFail] at hE
    · split at hE
      · simp at hE
      · rename_i hlock
        split at hE
        · simp at hE
        · split at hE
          · simp at hE
          · simp at hE
          · simp at hE
          · rename_i h' v' hH
            split at hE
            · simp at hE
            · rename_i hv0
              split at hE
              · simp at hE
              · simp only [Res.ok.injEq, Prod.mk.injEq] at hE
                obtain ⟨hs, hv, -, -⟩ := hE
                subst hv
                exact ⟨ch, h', hl, by simpa using hlock, hH,
                  Nat.pos_of_ne_zero hv0, hs.symm⟩

theorem ReadAcquire_err_inv (mode : BuildMode) (st : ManagerState) (oid : Nat)
    (c : StatusCode) (s : ManagerState)
    (hE : MutableObjectManager.ReadAcquire mode st oid = .err c s) :
    s = st ∨ ∃ ch, lookupCh st.channels oid = some ch ∧
      s = setCh st oid { ch with lockHeld := true } := by
  simp only [MutableObjectManager.ReadAcquire] at hE
  split at hE
  · simp only [Res.err.injEq] at hE; exact Or.inl hE.2.symm
  · rename_i ch hl
    split at hE
    · cases mode
      · simp [checkFail] at hE
      · simp only [checkFail, Res.err.injEq] at hE
        exact Or.inl hE.2.symm
    · split at hE
      · simp at hE
      · split at hE
        · simp at hE
        · split at hE
          · rename_i hH
            simp only [Res.err.injEq] at hE
            exact Or.inr ⟨ch, hl, hE.2.symm⟩
          · simp at hE
          · simp at hE
          · split at hE
            · simp at hE
            · split at hE
              · simp at hE
              · simp at hE

/- Transfer lemmas for `GoodReader` across state updates. -/

theorem goodReader_channels_congr {oid w : Nat} (st s : ManagerState)
    (h : s.channels = st.channels) (hw : GoodReader oid w st) : GoodReader oid w s := by
  obtain ⟨c, hc, hcond⟩ := hw
  exact ⟨c, by rw [h]; exact hc, hcond⟩

theorem goodReader_setCh_ne {oid w : Nat} {st : ManagerState} {tid : Nat} {ch' : Channel}
    (ht : tid ≠ oid) (hw : GoodReader oid w st) : GoodReader oid w (setCh st tid ch') := by
  obtain ⟨c, hc, hcond⟩ := hw
  exact ⟨c, by rw [lookupCh_setCh_ne _ _ _ _ ht]; exact hc, hcond⟩

theorem goodReader_setCh_keep {oid w : Nat} {st : ManagerState} {tid : Nat} {ch ch' : Channel}
    (hw : GoodReader oid w st) (hlk : lookupCh st.channels tid = some ch)
    (h1 : ch'.next_version_to_read = ch.next_version_to_read)
    (h2 : ch'.lockHeld = ch.lockHeld) :
    GoodReader oid w (setCh st tid ch') := by
  obtain ⟨c, hc, hcond⟩ := hw
  by_cases ht : tid = oid
  · subst ht
    rw [hc] at hlk
    injection hlk with hlk
    subst hlk
    refine ⟨ch', ?_, ?_⟩
    · rw [lookupCh_setCh_self, hc]; rfl
    · rw [h1, h2]; exact hcond
  · exact goodReader_setCh_ne ht ⟨c, hc, hcond⟩

theorem goodReader_setCh_lock {oid w : Nat} {st : ManagerState} {tid : Nat} {ch ch' : Channel}
    (hw : GoodReader oid w st) (hlk : lookupCh st.channels tid = some ch)
    (h1 : ch'.next_version_to_read = ch.next_version_to_read)
    (h2 : ch'.lockHeld = true) :
    GoodReader oid w (setCh st tid ch') := by
  obtain ⟨c, hc, hcond⟩ := hw
  by_cases ht : tid = oid
  · subst ht
    rw [hc] at hlk
    injection hlk with hlk
    subst hlk
    refine ⟨ch', ?_, ?_⟩
    · rw [lookupCh_setCh_self, hc]; rfl
    · rw [h1, h2]
      have hle : w ≤ c.next_version_to_read := by
        rcases Bool.eq_false_or_eq_true c.lockHeld with hb | hb <;> rw [hb] at hcond
        · exact (by simpa using hcond)
        · exact le_of_lt (by simpa using hcond)
      simpa using hle
  · exact goodReader_setCh_ne ht ⟨c, hc, hcond⟩

theorem goodReader_setCh_incr {oid w : Nat} {st : ManagerState} {tid : Nat} {ch ch' : Channel}
    (hw : GoodReader oid w st) (hlk : lookupCh st.channels tid = some ch)
    (h1 : ch'.next_version_to_read = ch.next_version_to_read + 1) :
    GoodReader oid w (setCh st tid ch') := by
  obtain ⟨c, hc, hcond⟩ := hw
  by_cases ht : tid = oid
  · subst ht
    rw [hc] at hlk
    injection hlk with hlk
    subst hlk
    refine ⟨ch', ?_, ?_⟩
    · rw [lookupCh_setCh_self, hc]; rfl
    · have hle : w ≤ c.next_version_to_read := by
        rcases Bool.eq_false_or_eq_true c.lockHeld with hb | hb <;> rw [hb] at hcond
        · exact (by simpa using hcond)
        · exact le_of_lt (by simpa using hcond)
      rw [h1]
      split
      · omega
      · omega
  · exact goodReader_setCh_ne ht ⟨c, hc, hcond⟩

theorem goodReader_cons_new {oid w : Nat} {st : ManagerState} {tid : Nat} {ch₀ : Channel}
    {sems : List Nat} (habs : lookupCh st.channels tid = none) (hw : GoodReader oid w st) :
    GoodReader oid w ⟨(tid, ch₀) :: st.channels, sems⟩ := by
  obtain ⟨c, hc, hcond⟩ := hw
  by_cases ht : tid = oid
  · subst ht
    rw [hc] at habs
    cases habs
  · exact ⟨c, by simp only [lookupCh, if_neg ht]; exact hc, hcond⟩

/- State-shape inversion lemmas for the remaining manager operations. -/

theorem WriteAcquire_ok_inv (mode : BuildMode) (st : ManagerState) (o ds : Nat)
    (md : Option (List Nat)) (ms nr : Nat) (s : ManagerState) (a : Unit)
    (hE : MutableObjectManager.WriteAcquire mode st o ds md ms nr = .ok s a) :
    ∃ ch h' buf, lookupCh st.channels o = some ch ∧
      s = setCh st o
        { ch with
           mutable_object := { ch.mutable_object with header := h', buffer := buf },
           written := true } := by
  simp only [MutableObjectManager.WriteAcquire] at hE
  split at hE
  · simp at hE
  · rename_i ch hl
    split at hE
    · cases mode <;> simp [checkFail] at hE
    · split at hE
      · cases mode <;> simp [checkFail] at hE
      · split at hE
        · simp at hE
        · split at hE
          · simp at hE
          · split at hE
            · simp at hE
            · simp at hE
            · simp at hE
            · simp only [Res.ok.injEq] at hE
              exact ⟨ch, _, _, hl, hE.1.symm⟩

theorem WriteAcquire_err_inv (mode : BuildMode) (st : ManagerState) (o ds : Nat)
    (md : Option (List Nat)) (ms nr : Nat) (c : StatusCode) (s : ManagerState)
    (hE : MutableObjectManager.WriteAcquire mode st o ds md ms nr = .err c s) : s = st := by
  simp only [MutableObjectManager.WriteAcquire] at hE
  split at hE
  · simp only [Res.err.injEq] at hE; exact hE.2.symm
  · split at hE
    · cases mode
      · simp [checkFail] at hE
      · simp only [checkFail, Res.err.injEq] at hE; exact hE.2.symm
    · split at hE
      · cases mode
        · simp [checkFail] at hE
        · simp only [checkFail, Res.err.injEq] at hE; exact hE.2.symm
      · split at hE
        · simp only [Res.err.injEq] at hE; exact hE.2.symm
        · split at hE
          · simp at hE
          · split at hE
            · simp only [Res.err.injEq] at hE; exact hE.2.symm
            · simp at hE
            · simp at hE
            · simp at hE

theorem WriteRelease_ok_inv (mode : BuildMode) (st : ManagerState) (o : Nat)
    (s : ManagerState) (a : Unit)
    (hE : MutableObjectManager.WriteRelease mode st o = .ok s a) :
    ∃ ch, lookupCh st.channels o = some ch ∧
      s = setCh st o
        { ch with
           mutable_object :=
             { ch.mutable_object with header := ch.mutable_object.header.WriteRelease },
           written := false } := by
  simp only [MutableObjectManager.WriteRelease] at hE
  split at hE
  · simp at hE
  · rename_i ch hl
    split at hE
    · cases mode <;> simp [checkFail] at hE
    · split at hE
      · cases mode <;> simp [checkFail] at hE
      · split at hE
        · simp at hE
        · simp only [Res.ok.injEq] at hE
          exact ⟨ch, hl, hE.1.symm⟩

theorem WriteRelease_err_inv (mode : BuildMode) (st : ManagerState) (o : Nat)
    (c : StatusCode) (s : ManagerState)
    (hE : MutableObjectManager.WriteRelease mode st o = .err c s) : s = st := by
  simp only [MutableObjectManager.WriteRelease] at hE
  split at hE
  · simp only [Res.err.injEq] at hE; exact hE.2.symm
  · split at hE
    · cases mode
      · simp [checkFail] at hE
      · simp only [checkFail, Res.err.injEq] at hE; exact hE.2.symm
    · split at hE
      · cases mode
        · simp [checkFail] at hE
        · simp only [checkFail, Res.err.injEq] at hE; exact hE.2.symm
      · split at hE
        · simp at hE
        · simp at hE

theorem ReadRelease_ok_inv (mode : BuildMode) (st : ManagerState) (o : Nat)
    (s : ManagerState) (a : Unit)
    (hE : MutableObjectManager.ReadRelease mode st o = .ok s a) :
    ∃ ch, lookupCh st.channels o = some ch ∧
      s = setCh st o
        { ch with
           mutable_object :=
             { ch.mutable_object with
                header := ch.mutable_object.header.ReadRelease ch.next_version_to_read },
           next_version_to_read := ch.next_version_to_read + 1,
           lockHeld := false } := by
  simp only [MutableObjectManager.ReadRelease] at hE
  split at hE
  · simp at hE
  · rename_i ch hl
    split at hE
    · cases mode <;> simp [checkFail] at hE
    · split at hE
      · simp at hE
      · simp only [Res.ok.injEq] at hE
        exact ⟨ch, hl, hE.1.symm⟩

theorem ReadRelease_err_inv (mode : BuildMode) (st : ManagerState) (o : Nat)
    (c : StatusCode) (s : ManagerState)
    (hE : MutableObjectManager.ReadRelease mode st o = .err c s) : s = st := by
  simp only [MutableObjectManager.ReadRelease] at hE
  split at hE
  · simp only [Res.err.injEq] at hE; exact hE.2.symm
  · split at hE
    · cases mode
      · simp [checkFail] at hE
      · simp only [checkFail, Res.err.injEq] at hE; exact hE.2.symm
    · split at hE
      · simp at hE
      · simp at hE

theorem SetError_ok_inv (st : ManagerState) (o : Nat) (s : ManagerState) (a : Unit)
    (hE : MutableObjectManager.SetError st o = .ok s a) :
    ∃ ch, lookupCh st.channels o = some ch ∧
      s = setCh st o
        { ch with
           mutable_object :=
             { ch.mutable_object with
                header := ch.mutable_object.header.SetErrorUnlocked },
           reader_registered := false,
           writer_registered := false } := by
  simp only [MutableObjectManager.SetError] at hE
  split at hE
  · simp at hE
  · split at hE
    · simp at hE
    · rename_i ch hl
      simp only [Res.ok.injEq] at hE
      exact ⟨ch, hl, hE.1.symm⟩

theorem SetError_err_inv (st : ManagerState) (o : Nat) (c : StatusCode) (s : ManagerState)
    (hE : MutableObjectManager.SetError st o = .err c s) : s = st := by
  simp only [MutableObjectManager.SetError] at hE
  split at hE
  · simp at hE
  · split at hE
    · simp only [Res.err.injEq] at hE; exact hE.2.symm
    · simp at hE

theorem OpenSemaphores_ok_channels (p : Nat) (st : ManagerState) (o : Nat)
    (hdr : PlasmaObjectHeader) (s : ManagerState) (a : Unit)
    (hE : MutableObjectManager.OpenSemaphores p st o hdr = .ok s a) :
    s.channels = st.channels := by
  simp only [MutableObjectManager.OpenSemaphores] at hE
  split at hE
  · simp only [Res.ok.injEq] at hE; rw [← hE.1]
  · split at hE
    · simp only [Res.ok.injEq] at hE; rw [← hE.1]
    · simp at hE

theorem OpenSemaphores_no_err (p : Nat) (st : ManagerState) (o : Nat)
    (hdr : PlasmaObjectHeader) (c : StatusCode) (s : ManagerState)
    (hE : MutableObjectManager.OpenSemaphores p st o hdr = .err c s) : False := by
  simp only [MutableObjectManager.OpenSemaphores] at hE
  split at hE
  · simp at hE
  · split at hE
    · simp at hE
    · simp at hE

theorem RegisterChannel_ok_inv (p : Nat) (st : ManagerState) (o : Nat)
    (obj : MutableObject) (r : Bool) (s : ManagerState) (a : Unit)
    (hE : MutableObjectManager.RegisterChannel p st o obj r = .ok s a) :
    (∃ ch₀ : Channel, lookupCh st.channels o = none ∧
       s.channels = (o, ch₀) :: st.channels) ∨
    (∃ ch ch' : Channel, lookupCh st.channels o = some ch ∧
       s.channels = updateCh st.channels o ch' ∧
       ch'.next_version_to_read = ch.next_version_to_read ∧ ch'.lockHeld = ch.lockHeld) := by
  simp only [MutableObjectManager.RegisterChannel] at hE
  split at hE
  · rename_i hl
    left
    have hc := OpenSemaphores_ok_channels _ _ _ _ _ _ hE
    exact ⟨_, hl, by rw [hc]⟩
  · rename_i ch hl
    split at hE
    · simp at hE
    · right
      have hc := OpenSemaphores_ok_channels _ _ _ _ _ _ hE
      cases r
      · exact ⟨ch, { ch with writer_registered := true }, hl, by rw [hc]; rfl, rfl, rfl⟩
      · exact ⟨ch, { ch with reader_registered := true }, hl, by rw [hc]; rfl, rfl, rfl⟩

theorem RegisterChannel_err_inv (p : Nat) (st : ManagerState) (o : Nat)
    (obj : MutableObject) (r : Bool) (c : StatusCode) (s : ManagerState)
    (hE : MutableObjectManager.RegisterChannel p st o obj r = .err c s) : s = st := by
  simp only [MutableObjectManager.RegisterChannel] at hE
  split at hE
  · exact absurd hE (fun hcontra => OpenSemaphores_no_err _ _ _ _ _ _ hcontra)
  · split at hE
    · simp only [Res.err.injEq] at hE; exact hE.2.symm
    · exact absurd hE (fun hcontra => OpenSemaphores_no_err _ _ _ _ _ _ hcontra)

/-- A step of `runOp` that does not report a successful read on channel `oid`
preserves the reader-progress invariant of that channel. -/
theorem runOp_keep (p : Nat) (mode : BuildMode) (oid : Nat) (st : ManagerState) (op : Op)
    (w : Nat) (hw : GoodReader oid w st)
    (hno : ∀ v, (runOp p mode st op).2 ≠ some (oid, v)) :
    GoodReader oid w (runOp p mode st op).1 := by
  cases op with
  | reg o obj r =>
      simp only [runOp]
      cases hE : MutableObjectManager.RegisterChannel p st o obj r with
      | ok s a =>
          rcases RegisterChannel_ok_inv p st o obj r s a hE with
            ⟨ch₀, hl, hch⟩ | ⟨ch, ch', hl, hch, h1, h2⟩
          · exact goodReader_channels_congr ⟨(o, ch₀) :: st.channels, s.semaphores⟩ s
              (by rw [hch]) (goodReader_cons_new hl hw)
          · exact goodReader_channels_congr (setCh st o ch') s (by rw [hch]; rfl)
              (goodReader_setCh_keep hw hl h1 h2)
      | err c s => rw [RegisterChannel_err_inv p st o obj r c s hE]; exact hw
      | blocked => exact hw
      | halt => exact hw
  | wAcq o ds md ms nr =>
      simp only [runOp]
      cases hE : MutableObjectManager.WriteAcquire mode st o ds md ms nr with
      | ok s a =>
          obtain ⟨ch, h', buf, hl, rfl⟩ := WriteAcquire_ok_inv mode st o ds md ms nr s a hE
          exact goodReader_setCh_keep hw hl rfl rfl
      | err c s => rw [WriteAcquire_err_inv mode st o ds md ms nr c s hE]; exact hw
      | blocked => exact hw
      | halt => exact hw
  | wRel o =>
      simp only [runOp]
      cases hE : MutableObjectManager.WriteRelease mode st o with
      | ok s a =>
          obtain ⟨ch, hl, rfl⟩ := WriteRelease_ok_inv mode st o s a hE
          exact goodReader_setCh_keep hw hl rfl rfl
      | err c s => rw [WriteRelease_err_inv mode st o c s hE]; exact hw
      | blocked => exact hw
      | halt => exact hw
  | rAcq o =>
      simp only [runOp] at hno ⊢
      cases hE : MutableObjectManager.ReadAcquire mode st o with
      | ok s a =>
          obtain ⟨v, d, m⟩ := a
          by_cases ho : o = oid
          · subst ho
            rw [hE] at hno
            exact absurd rfl (hno v)
          · obtain ⟨ch, h', hl, hlock, hH, hv0, rfl⟩ :=
              ReadAcquire_ok_inv mode st o s v d m hE
            exact goodReader_setCh_ne ho hw
      | err c s =>
          rcases ReadAcquire_err_inv mode st o c s hE with rfl | ⟨ch, hl, rfl⟩
          · exact hw
          · exact goodReader_setCh_lock hw hl rfl rfl
      | blocked => exact hw
      | halt => exact hw
  | rRel o =>
      simp only [runOp]
      cases hE : MutableObjectManager.ReadRelease mode st o with
      | ok s a =>
          obtain ⟨ch, hl, rfl⟩ := ReadRelease_ok_inv mode st o s a hE
          exact goodReader_setCh_incr hw hl rfl
      | err c s => rw [ReadRelease_err_inv mode st o c s hE]; exact hw
      | blocked => exact hw
      | halt => exact hw
  | sErr o =>
      simp only [runOp]
      cases hE : MutableObjectManager.SetError st o with
      | ok s a =>
          obtain ⟨ch, hl, rfl⟩ := SetError_ok_inv st o s a hE
          exact goodReader_setCh_keep hw hl rfl rfl
      | err c s => rw [SetError_err_inv st o c s hE]; exact hw
      | blocked => exact hw
      | halt => exact hw

/-- A step of `runOp` that reports a successful read of version `v` on
channel `oid`: the version is positive, re-establishes the invariant at `v`,
and strictly exceeds every bound that held before the step. -/
theorem runOp_emit (p : Nat) (mode : BuildMode) (oid : Nat) (st : ManagerState) (op : Op)
    (v : Nat) (h : (runOp p mode st op).2 = some (oid, v)) :
    0 < v ∧ GoodReader oid v (runOp p mode st op).1 ∧
      ∀ w, GoodReader oid w st → w < v := by
  cases op with
  | reg o obj r =>
      simp only [runOp] at h
      cases hE : MutableObjectManager.RegisterChannel p st o obj r <;> rw [hE] at h <;>
        simp at h
  | wAcq o ds md ms nr =>
      simp only [runOp] at h
      cases hE : MutableObjectManager.WriteAcquire mode st o ds md ms nr <;> rw [hE] at h <;>
        simp at h
  | wRel o =>
      simp only [runOp] at h
      cases hE : MutableObjectManager.WriteRelease mode st o <;> rw [hE] at h <;> simp at h
  | rRel o =>
      simp only [runOp] at h
      cases hE : MutableObjectManager.ReadRelease mode st o <;> rw [hE] at h <;> simp at h
  | sErr o =>
      simp only [runOp] at h
      cases hE : MutableObjectManager.SetError st o <;> rw [hE] at h <;> simp at h
  | rAcq o =>
      simp only [runOp] at h ⊢
      cases hE : MutableObjectManager.ReadAcquire mode st o with
      | ok s a =>
          obtain ⟨v₀, d, m⟩ := a
          rw [hE] at h
          simp only [Option.some.injEq, Prod.mk.injEq] at h
          obtain ⟨ho, hv⟩ := h
          subst hv
          rw [ho] at hE
          obtain ⟨ch, h', hl, hlock, hH, hv0, rfl⟩ :=
            ReadAcquire_ok_inv mode st oid _ v₀ d m hE
          obtain ⟨hveq, hreq⟩ := hdr_ReadAcquire_ok _ _ _ _ hH
          refine ⟨hv0, ?_, ?_⟩
          · show GoodReader oid v₀ (setCh st oid
              { ch with
                 mutable_object := { ch.mutable_object with header := h' },
                 next_version_to_read := v₀,
                 lockHeld := true })
            refine ⟨{ ch with
                       mutable_object := { ch.mutable_object with header := h' },
                       next_version_to_read := v₀,
                       lockHeld := true }, ?_, ?_⟩
            · rw [lookupCh_setCh_self, hl]; rfl
            · simp
          · intro w hw
            obtain ⟨c, hc, hcond⟩ := hw
            rw [hl] at hc
            injection hc with hc
            subst hc
            rw [hlock] at hcond
            simp only [Bool.false_eq_true, if_false] at hcond
            rw [hveq]
            exact lt_of_lt_of_le hcond hreq
      | err c s => rw [hE] at h; simp at h
      | blocked => rw [hE] at h; simp at h
      | halt => rw [hE] at h; simp at h

/-- Along any sequence of manager calls, the versions of the successful
`ReadAcquire`s on a fixed channel form a strictly increasing, positive
sequence. -/
theorem readVersions_spec (p : Nat) (mode : BuildMode) (oid : Nat) : ∀ ops st,
    List.Chain' (· < ·) (readVersions p mode oid st ops) ∧
    (∀ w, GoodReader oid w st → ∀ v ∈ readVersions p mode oid st ops, w < v) ∧
    (∀ v ∈ readVersions p mode oid st ops, 0 < v) := by
  intro ops
  induction ops with
  | nil => intro st; refine ⟨?_, ?_, ?_⟩ <;> simp [readVersions]
  | cons op ops ih =>
      intro st
      rcases hE2 : (runOp p mode st op).2 with _ | ⟨o, v⟩
      · have h1 := ih (runOp p mode st op).1
        have hkeep : ∀ w, GoodReader oid w st → GoodReader oid w (runOp p mode st op).1 :=
          fun w hw => runOp_keep p mode oid st op w hw (by simp [hE2])
        have hlist : readVersions p mode oid st (op :: ops) =
            readVersions p mode oid (runOp p mode st op).1 ops := by
          simp [readVersions, hE2]
        refine ⟨by rw [hlist]; exact h1.1, ?_, by rw [hlist]; exact h1.2.2⟩
        intro w hw u hu
        rw [hlist] at hu
        exact h1.2.1 w (hkeep w hw) u hu
      · by_cases ho : o = oid
        · rw [ho] at hE2
          obtain ⟨hv0, hgood, hlt⟩ := runOp_emit p mode oid st op v hE2
          have h1 := ih (runOp p mode st op).1
          have hlist : readVersions p mode oid st (op :: ops) =
              v :: readVersions p mode oid (runOp p mode st op).1 ops := by
            simp [readVersions, hE2]
          refine ⟨?_, ?_, ?_⟩
          · rw [hlist, List.chain'_cons']
            refine ⟨?_, h1.1⟩
            intro y hy
            exact h1.2.1 v hgood y (List.mem_of_mem_head? hy)
          · intro w hw u hu
            rw [hlist] at hu
            rcases List.mem_cons.mp hu with rfl | hu
            · exact hlt w hw
            · exact lt_trans (hlt w hw) (h1.2.1 v hgood u hu)
          · intro u hu
            rw [hlist] at hu
            rcases List.mem_cons.mp hu with rfl | hu
            · exact hv0
            · exact h1.2.2 u hu
        · have h1 := ih (runOp p mode st op).1
          have hkeep : ∀ w, GoodReader oid w st → GoodReader oid w (runOp p mode st op).1 :=
            fun w hw => runOp_keep p mode oid st op w hw
              (by
                rw [hE2]
                intro v' hcontra
                injection hcontra with hp
                exact ho (congrArg Prod.fst hp))
          have hlist : readVersions p mode oid st (op :: ops) =
              readVersions p mode oid (runOp p mode st op).1 ops := by
            simp [readVersions, hE2, ho]
          refine ⟨by rw [hlist]; exact h1.1, ?_, by rw [hlist]; exact h1.2.2⟩
          intro w hw u hu
          rw [hlist] at hu
          exact h1.2.1 w (hkeep w hw) u hu

/-- C3: on a channel with a registered writer and `written = false`, an
over-size `WriteAcquire` returns `InvalidArgument` and leaves the whole state
(channel record, shared header, semaphores) untouched, and a subsequent
`WriteAcquire` with in-bounds sizes can succeed. -/
theorem C3_oversize_write_rejected (mode : BuildMode) (st : ManagerState) (oid : Nat)
    (ch : Channel) (ds ms nr : Nat) (md : Option (List Nat))
    (h1 : lookupCh st.channels oid = some ch) (h2 : ch.writer_registered = true)
    (h3 : ch.written = false) (h4 : ch.mutable_object.allocated_size < ds + ms) :
    MutableObjectManager.WriteAcquire mode st oid ds md ms nr = .err .invalidArgument st ∧
    ∀ ds' ms' nr' : Nat, ∀ md' : Option (List Nat),
      ds' + ms' ≤ ch.mutable_object.allocated_size →
      ch.mutable_object.header.has_error = false →
      ch.mutable_object.header.object_sem ≠ 0 →
      oid ∈ st.semaphores →
      ∃ st', MutableObjectManager.WriteAcquire mode st oid ds' md' ms' nr' = .ok st' () := by
  constructor
  · simp [MutableObjectManager.WriteAcquire, h1, h2, h3, h4]
  · intro ds' ms' nr' md' hle herr hsem hcontains
    simp [MutableObjectManager.WriteAcquire, h1, h2, h3, Nat.not_lt.mpr hle, hcontains,
      PlasmaObjectHeader.WriteAcquire, herr, hsem]

/-- C3 witness: scenario S2 on a 64-byte channel: `WriteAcquire(60, 8, 1)`
returns `InvalidArgument` leaving the state unchanged, and
`WriteAcquire(4, 2, 1)` can then succeed. -/
theorem C3_witness :
    MutableObjectManager.WriteAcquire .debug stW 3 60 none 8 1 = .err .invalidArgument stW ∧
    ∃ st', MutableObjectManager.WriteAcquire .debug stW 3 4 none 2 1 = .ok st' () := by
  obtain ⟨ha, hb⟩ :=
    C3_oversize_write_rejected .debug stW 3 chW 60 8 1 none rfl rfl rfl (by decide)
  exact ⟨ha, hb 4 2 1 none (by decide) rfl (by decide) (by decide)⟩

/-- C4 counterexample: on a manager with no registered channel,
`SetError(object_id)` halts (the semaphore-map `RAY_CHECK` inside
`GetSemaphores` fires before the null-channel branch) instead of returning
`NotRegistered`. -/
theorem C4_counterexample :
    MutableObjectManager.SetError ⟨[], []⟩ 0 = .halt ∧
    MutableObjectManager.SetError ⟨[], []⟩ 0 ≠ .err .objectNotFound ⟨[], []⟩ :=
  ⟨rfl, by decide⟩

/-- C4 amended: for an unregistered `object_id`, `WriteAcquire`,
`WriteRelease`, `ReadAcquire` and `ReadRelease` return `NotRegistered` with no
other effect, while `SetError` halts at the semaphore lookup, which the code
performs before its null-channel check. -/
theorem C4_amended_unregistered (mode : BuildMode) (st : ManagerState) (oid : Nat)
    (ds ms nr : Nat) (md : Option (List Nat))
    (h1 : lookupCh st.channels oid = none) (h2 : oid ∉ st.semaphores) :
    MutableObjectManager.WriteAcquire mode st oid ds md ms nr = .err .objectNotFound st ∧
    MutableObjectManager.WriteRelease mode st oid = .err .objectNotFound st ∧
    MutableObjectManager.ReadAcquire mode st oid = .err .objectNotFound st ∧
    MutableObjectManager.ReadRelease mode st oid = .err .objectNotFound st ∧
    MutableObjectManager.SetError st oid = .halt := by
  refine ⟨?_, ?_, ?_, ?_, ?_⟩ <;>
    simp [MutableObjectManager.WriteAcquire, MutableObjectManager.WriteRelease,
      MutableObjectManager.ReadAcquire, MutableObjectManager.ReadRelease,
      MutableObjectManager.SetError, h1, h2]

/-- C4 witness: the amended statement on the empty manager at object id 0. -/
theorem C4_witness :
    MutableObjectManager.WriteAcquire .debug ⟨[], []⟩ 0 1 none 1 1 =
      .err .objectNotFound ⟨[], []⟩ ∧
    MutableObjectManager.WriteRelease .debug ⟨[], []⟩ 0 = .err .objectNotFound ⟨[], []⟩ ∧
    MutableObjectManager.ReadAcquire .debug ⟨[], []⟩ 0 = .err .objectNotFound ⟨[], []⟩ ∧
    MutableObjectManager.ReadRelease .debug ⟨[], []⟩ 0 = .err .objectNotFound ⟨[], []⟩ ∧
    MutableObjectManager.SetError ⟨[], []⟩ 0 = .halt :=
  C4_amended_unregistered .debug ⟨[], []⟩ 0 1 1 1 none rfl (by decide)

/-- C5: on a registered writer channel with `written = false`, a
`WriteRelease` without a preceding successful `WriteAcquire` returns
`InvalidArgument` in release builds. -/
theorem C5_writeRelease_without_acquire (st : ManagerState) (oid : Nat) (ch : Channel)
    (h1 : lookupCh st.channels oid = some ch) (h2 : ch.writer_registered = true)
    (h3 : ch.written = false) :
    MutableObjectManager.WriteRelease .release st oid = .err .invalidArgument st := by
  simp [MutableObjectManager.WriteRelease, h1, h2, h3, checkFail]

/-- C5 witness: the fresh writer channel of `stW`. -/
theorem C5_witness :
    MutableObjectManager.WriteRelease .release stW 3 = .err .invalidArgument stW :=
  C5_writeRelease_without_acquire stW 3 chW rfl rfl rfl

/-- C8: `RegisterChannel` rejects a second registration of an
already-registered role with `Invalid` and no state change, while registering
the other role on the same object succeeds and sets only that role's flag. -/
theorem C8_register_roles (p : Nat) (st : ManagerState) (oid : Nat) (obj : MutableObject)
    (r : Bool) (ch : Channel) (h1 : lookupCh st.channels oid = some ch) :
    ((if r then ch.reader_registered else ch.writer_registered) = true →
      MutableObjectManager.RegisterChannel p st oid obj r = .err .invalid st) ∧
    ((if r then ch.reader_registered else ch.writer_registered) = false →
      oid ∈ st.semaphores →
      MutableObjectManager.RegisterChannel p st oid obj r =
        .ok (setCh st oid (if r then { ch with reader_registered := true }
                           else { ch with writer_registered := true })) ()) := by
  cases r <;>
    exact ⟨fun h => by
             simp only [Bool.false_eq_true, if_false, if_true] at h
             simp [MutableObjectManager.RegisterChannel, h1, h],
           fun h hc => by
             simp only [Bool.false_eq_true, if_false, if_true] at h
             simp [MutableObjectManager.RegisterChannel, MutableObjectManager.OpenSemaphores,
               h1, h, setCh, hc]⟩

/-- C8 witness: on the writer-only channel of `stW`, registering the writer
role again is `Invalid`, and registering the reader role succeeds and sets
only the reader flag. -/
theorem C8_witness :
    MutableObjectManager.RegisterChannel 30 stW 3 obj64 false = .err .invalid stW ∧
    MutableObjectManager.RegisterChannel 30 stW 3 obj64 true =
      .ok (setCh stW 3 { chW with reader_registered := true }) () :=
  ⟨(C8_register_roles 30 stW 3 obj64 false chW rfl).1 rfl,
   (C8_register_roles 30 stW 3 obj64 true chW rfl).2 rfl (by decide)⟩

/-- C9 counterexample: with a platform limit of 4, the `unique_name`
`"abcd"` makes both prefixed names 7 characters long, yet registration
accepts it silently; and the `unique_name` `"abcde"` is not rejected with an
error but halts the process (a failed `RAY_CHECK`). -/
theorem C9_counterexample :
    (MutableObjectManager.RegisterChannel 4 ⟨[], []⟩ 1 obj4 true).isOk = true ∧
    4 < ("obj" ++ "abcd").length ∧
    MutableObjectManager.RegisterChannel 4 ⟨[], []⟩ 1 obj5 true = .halt :=
  ⟨rfl, by decide, rfl⟩

/-- C9 amended: the semaphore names are exactly `"hdr" + unique_name` and
`"obj" + unique_name`; registration checks only the unprefixed
`unique_name` against the platform limit, halting (rather than returning an
error) when that check fails, so names whose prefixed forms exceed the limit
by up to 3 are accepted. -/
theorem C9_naming (p : Nat) (u : String) :
    (u.length ≤ p →
      GetSemaphoreObjectName p u = some ("obj" ++ u) ∧
      GetSemaphoreHeaderName p u = some ("hdr" ++ u)) ∧
    (p < u.length → ∀ st oid obj r, lookupCh st.channels oid = none →
      oid ∉ st.semaphores → obj.header.unique_name = u →
      MutableObjectManager.RegisterChannel p st oid obj r = .halt) := by
  constructor
  · intro h
    exact ⟨by simp [GetSemaphoreObjectName, h], by simp [GetSemaphoreHeaderName, h]⟩
  · intro h st oid obj r h1 h2 h3
    cases r <;>
      simp [MutableObjectManager.RegisterChannel, MutableObjectManager.OpenSemaphores,
        MutableObjectManager.GetSemaphoreName, h1, h2, h3, Nat.not_le.mpr h]

/-- C9 witness: the name `"abc"` under limit 4 produces exactly the two
prefixed names, and the name `"abcde"` makes registration halt. -/
theorem C9_witness :
    (GetSemaphoreObjectName 4 "abc" = some ("obj" ++ "abc") ∧
     GetSemaphoreHeaderName 4 "abc" = some ("hdr" ++ "abc")) ∧
    MutableObjectManager.RegisterChannel 4 ⟨[], []⟩ 2 obj5 true = .halt :=
  ⟨(C9_naming 4 "abc").1 (by decide),
   (C9_naming 4 "abcde").2 (by decide) ⟨[], []⟩ 2 obj5 true rfl (by decide) rfl⟩

/-- C10: on a registered reader channel, `ReadRelease` without a preceding
successful `ReadAcquire` is not rejected: it applies the header `ReadRelease`
at the current `next_version_to_read`, increments `next_version_to_read`,
unlocks the reader mutex, and returns OK (the `Channel` record keeps no flag
recording an outstanding read). -/
theorem C10_readRelease_unpaired (mode : BuildMode) (st : ManagerState) (oid : Nat)
    (ch : Channel) (h1 : lookupCh st.channels oid = some ch)
    (h2 : ch.reader_registered = true) (h3 : oid ∈ st.semaphores) :
    MutableObjectManager.ReadRelease mode st oid =
      .ok (setCh st oid
            { ch with
               mutable_object :=
                 { ch.mutable_object with
                    header := ch.mutable_object.header.ReadRelease ch.next_version_to_read },
               next_version_to_read := ch.next_version_to_read + 1,
               lockHeld := false }) () := by
  simp [MutableObjectManager.ReadRelease, h1, h2, h3]

/-- C10 witness: `ReadRelease` on the fresh reader channel of `stV`, where no
`ReadAcquire` has happened (`lockHeld = false`), still returns OK and
advances `next_version_to_read`. -/
theorem C10_witness :
    MutableObjectManager.ReadRelease .debug stV 4 =
      .ok (setCh stV 4
            { chV with
               mutable_object :=
                 { chV.mutable_object with
                    header := chV.mutable_object.header.ReadRelease chV.next_version_to_read },
               next_version_to_read := chV.next_version_to_read + 1,
               lockHeld := false }) () :=
  C10_readRelease_unpaired .debug stV 4 chV rfl rfl (by decide)

/-- C1 counterexample: after a successful `SetError` on the channel of
`stRW`, the next `WriteAcquire` and `ReadAcquire` halt at the registration
`RAY_CHECK`s (the flags were cleared) instead of returning `ChannelError`. -/
theorem C1_counterexample :
    MutableObjectManager.SetError stRW 1 = .ok stErr1 () ∧
    MutableObjectManager.WriteAcquire .debug stErr1 1 2 none 0 1 = .halt ∧
    MutableObjectManager.ReadAcquire .debug stErr1 1 = .halt :=
  ⟨rfl, rfl, rfl⟩

/-- C1 amended: once `SetError(object_id)` has returned successfully, every
subsequent acquire on that channel fails rather than succeeding, but not with
`ChannelError`: because `SetError` cleared both registration flags, each
acquire fails the registration check, halting in debug builds and returning
`NotRegistered` in release builds. -/
theorem C1_acquires_fail_after_error (st st' : ManagerState) (oid : Nat)
    (h : MutableObjectManager.SetError st oid = .ok st' ()) :
    ∀ mode ds ms nr : _, ∀ md : Option (List Nat),
      MutableObjectManager.WriteAcquire mode st' oid ds md ms nr =
        checkFail mode .objectNotFound st' ∧
      MutableObjectManager.ReadAcquire mode st' oid = checkFail mode .objectNotFound st' := by
  intro mode ds ms nr md
  simp only [MutableObjectManager.SetError] at h
  split at h
  · exact absurd h (by simp)
  · rcases hl : lookupCh st.channels oid with _ | ch
    · rw [hl] at h; exact absurd h (by simp)
    · rw [hl] at h
      simp only [Res.ok.injEq, and_true] at h
      subst h
      have hl' : lookupCh (setCh st oid
          { ch with
             mutable_object :=
               { ch.mutable_object with
                  header := ch.mutable_object.header.SetErrorUnlocked },
             reader_registered := false,
             writer_registered := false }).channels oid =
          some { ch with
                  mutable_object :=
                    { ch.mutable_object with
                       header := ch.mutable_object.header.SetErrorUnlocked },
                  reader_registered := false,
                  writer_registered := false } := by
        rw [lookupCh_setCh_self, hl]; rfl
      constructor
      · simp [MutableObjectManager.WriteAcquire, hl']
      · simp [MutableObjectManager.ReadAcquire, hl']

/-- C1 witness: the amended statement on `stRW` in debug mode. -/
theorem C1_witness :
    MutableObjectManager.WriteAcquire .debug stErr1 1 2 none 0 1 =
      checkFail .debug .objectNotFound stErr1 ∧
    MutableObjectManager.ReadAcquire .debug stErr1 1 =
      checkFail .debug .objectNotFound stErr1 :=
  C1_acquires_fail_after_error stRW stErr1 1 rfl .debug 2 0 1 none

/-- C6: monotonic versions per reader.  Across any sequence of manager calls
(in particular alternating successful `ReadAcquire`/`ReadRelease` pairs), the
versions returned by the successful `ReadAcquire`s on a channel are strictly
increasing and positive; moreover each successful `ReadAcquire` returns a
version at least the requested `next_version_to_read` (which it then stores;
`ReadRelease` increments it). -/
theorem C6_monotonic_versions :
    (∀ p mode oid st ops,
       List.Chain' (· < ·) (readVersions p mode oid st ops) ∧
       ∀ v ∈ readVersions p mode oid st ops, 0 < v) ∧
    (∀ mode st oid s v d m ch,
       MutableObjectManager.ReadAcquire mode st oid = .ok s (v, d, m) →
       lookupCh st.channels oid = some ch →
       ch.next_version_to_read ≤ v ∧ 0 < v) := by
  constructor
  · intro p mode oid st ops
    obtain ⟨h1, -, h3⟩ := readVersions_spec p mode oid ops st
    exact ⟨h1, h3⟩
  · intro mode st oid s v d m ch hE hl
    obtain ⟨ch', h', hl', hlock, hH, hv0, -⟩ := ReadAcquire_ok_inv mode st oid s v d m hE
    rw [hl] at hl'
    injection hl' with hl'
    subst hl'
    obtain ⟨hveq, hreq⟩ := hdr_ReadAcquire_ok _ _ _ _ hH
    exact ⟨by rw [hveq]; exact hreq, hv0⟩

/-- C6 witness: a concrete successful `ReadAcquire` on `stV` returning
version 1, at least the requested `next_version_to_read` of `chV` and
positive. -/
theorem C6_witness : chV.next_version_to_read ≤ 1 ∧ 0 < 1 :=
  C6_monotonic_versions.2 .debug stV 4 (setCh stV 4 chV') 1 [] [] chV rfl rfl

/-- C7: cross-node round trip.  When `HandlePushMutableObject` writes a
payload of `data_size` bytes immediately followed by `metadata_size` bytes
into the mapped local channel, a subsequent successful local `ReadAcquire`
on that channel returns a data slice equal to the first `data_size` bytes and
a metadata slice equal to the next `metadata_size` bytes, sizes unchanged. -/
theorem C7_round_trip (mode : BuildMode) (ps : ProviderState) (R : Nat)
    (info : LocalInfo) (ch : Channel) (bytes : List Nat) (ds ms : Nat)
    (hinfo : lookupInfo ps.cross_node_map R = some info)
    (hL : lookupCh ps.object_manager.channels info.local_object_id = some ch)
    (hwr : ch.writer_registered = true) (hrd : ch.reader_registered = true)
    (hwn : ch.written = false) (hlk : ch.lockHeld = false)
    (hnext : ch.next_version_to_read = 1)
    (herr : ch.mutable_object.header.has_error = false)
    (hsem0 : ch.mutable_object.header.object_sem = 1)
    (hver : ch.mutable_object.header.version = 0)
    (hnr : 0 < info.num_readers)
    (hsize : ds + ms ≤ ch.mutable_object.allocated_size)
    (hlen : bytes.length = ds + ms)
    (hsems : info.local_object_id ∈ ps.object_manager.semaphores) :
    ∃ s, MutableObjectProvider.PushThenReadAcquire mode ps R ds ms bytes =
      .ok s (1, bytes.take ds, bytes.drop ds) := by
  have hnz : ch.mutable_object.header.object_sem ≠ 0 := by omega
  have hnr' : info.num_readers ≠ 0 := by omega
  have hacq : ¬(Int.ofNat info.num_readers ≤ 0) := by
    show ¬((info.num_readers : Int) ≤ 0)
    omega
  have hds : ds ≤ bytes.length := by omega
  have hdroplen : (bytes.drop ds).length = ms := by rw [List.length_drop]; omega
  have hbt : bytes.take (ds + ms) = bytes := by rw [← hlen]; exact List.take_length bytes
  simp [MutableObjectProvider.PushThenReadAcquire,
    MutableObjectProvider.HandlePushMutableObject, hinfo,
    MutableObjectManager.WriteAcquire, hL, hwr, hwn, Nat.not_lt.mpr hsize, hsems,
    PlasmaObjectHeader.WriteAcquire, herr, hsem0, hnz,
    MutableObjectManager.WriteRelease, PlasmaObjectHeader.WriteRelease,
    MutableObjectManager.ReadAcquire, PlasmaObjectHeader.ReadAcquire,
    lookupCh_updateCh_self, setCh, MutableObjectManager.writeBytes,
    hrd, hlk, hnext, hver, hnr', hacq, hds, hdroplen, hbt,
    List.take_append_of_le_length, List.drop_append_of_le_length,
    List.take_of_length_le]

/-- C7 witness: scenario S5.  Remote object 7 maps to local object 1 with one
declared reader; pushing `DE AD BE EF` with `data_size = 3`,
`metadata_size = 1` lets the local reader observe version 1 with
`data = DE AD BE` and `metadata = EF`. -/
theorem C7_witness :
    ∃ s, MutableObjectProvider.PushThenReadAcquire .debug psS5 7 3 1 [222, 173, 190, 239] =
      .ok s (1, [222, 173, 190], [239]) :=
  C7_round_trip .debug psS5 7 { num_readers := 1, local_object_id := 1 } chRW
    [222, 173, 190, 239] 3 1 rfl rfl rfl rfl rfl rfl rfl rfl rfl rfl (by decide) (by decide)
    rfl (by decide)

/-- C2: on the reader channel of `stE`, whose shared header carries the error
flag, `ReadAcquire` returns `ChannelError` but leaves the per-channel reader
mutex held (the early return skips the unlock), so the next `ReadAcquire` on
the same channel blocks indefinitely on that mutex — the code contradicts the
claim. -/
theorem C2_bug_lock_leak_after_error :
    MutableObjectManager.ReadAcquire .debug stE 2 =
      .err .ioError (setCh stE 2 { chE with lockHeld := true }) ∧
    (lookupCh (setCh stE 2 { chE with lockHeld := true }).channels 2).map
      Channel.lockHeld = some true ∧
    MutableObjectManager.ReadAcquire .debug (setCh stE 2 { chE with lockHeld := true }) 2 =
      .blocked :=
  ⟨rfl, rfl, rfl⟩

end Ray
